import Mathlib

/-!
Verification of the tiered fee calculator (`streamlit_app.py`).

The core of the application is `calculate_annual_revenue(total_units,
tiers_data)`: it sorts the tier records by `min_units` (Python's `sorted`,
a stable sort), walks the sorted list computing for each tier

  units_in_this_tier = max(0, min(total_units, tier_max) - tier_min + 1)

and, for every tier after the first, subtracts the units the immediately
preceding sorted tier already counted,

  units_already_counted = max(0, min(total_units, prev_tier_max) - tier_min + 1)
  units_in_this_tier    = max(0, units_in_this_tier - units_already_counted),

accumulating `units_in_this_tier * price_per_unit * frequency_multiplier`.

Unit counts are Python ints, modelled as `ℤ`; prices and frequency
multipliers are Python floats, modelled as `ℚ` (their exact arithmetic).
The surrounding script also computes `total_annual_cost = total_units *
cost_per_unit`, `annual_margin = annual_revenue - total_annual_cost`, a
forecast table (one identical row per projection year, only when
`total_units > 0`), and a guarded breakeven quotient.
-/

namespace FeeCalc

/-- One tier record, as assembled in `tiers_data` (the `frequency_text`
display label is irrelevant to computation and omitted). -/
structure Tier where
  min_units : ℤ
  max_units : ℤ
  price_per_unit : ℚ
  frequency_multiplier : ℚ
  deriving Repr, DecidableEq

instance : Inhabited Tier := ⟨⟨0, 0, 0, 0⟩⟩

/-- The sort key used by `sorted(tiers_data, key=lambda x: x['min_units'])`. -/
def tierLE (a b : Tier) : Prop := a.min_units ≤ b.min_units

instance : DecidableRel tierLE := fun a b =>
  inferInstanceAs (Decidable (a.min_units ≤ b.min_units))

instance : IsTotal Tier tierLE := ⟨fun a b => Int.le_total a.min_units b.min_units⟩

instance : IsTrans Tier tierLE := ⟨fun _ _ _ h h' => le_trans h h'⟩

/-- `sorted_tiers = sorted(tiers_data, key=lambda x: x['min_units'])`
(Python's `sorted` is stable; insertion sort with `≤` on the key is the
same stable sort). -/
def sortedTiers (tiers_data : List Tier) : List Tier :=
  List.insertionSort tierLE tiers_data

/-- The body of the loop in `calculate_annual_revenue` for one tier:
`prev` is `sorted_tiers[i-1]` when `i > 0` and `none` when `i = 0`. -/
def tierAlloc (total_units : ℤ) (prev : Option Tier) (tier : Tier) : ℤ :=
  let units_in_this_tier := max 0 (min total_units tier.max_units - tier.min_units + 1)
  match prev with
  | none => units_in_this_tier
  | some p =>
      let units_already_counted := max 0 (min total_units p.max_units - tier.min_units + 1)
      max 0 (units_in_this_tier - units_already_counted)

/-- The per-tier unit allocations produced by the loop, carrying the
previous sorted tier through the iteration. -/
def allocList (total_units : ℤ) : Option Tier → List Tier → List ℤ
  | _, [] => []
  | prev, tier :: rest =>
      tierAlloc total_units prev tier :: allocList total_units (some tier) rest

/-- The allocation algorithm (the spec's `TierAllocator.allocate`): units
allocated to each tier of `sortedTiers tiers_data`, in sorted order. -/
def allocations (total_units : ℤ) (tiers_data : List Tier) : List ℤ :=
  allocList total_units none (sortedTiers tiers_data)

/-- The revenue accumulation of the loop:
`annual_revenue += units_in_this_tier * price_per_unit * frequency_multiplier`. -/
def revenueGo (total_units : ℤ) : Option Tier → List Tier → ℚ
  | _, [] => 0
  | prev, tier :: rest =>
      (tierAlloc total_units prev tier : ℚ) * tier.price_per_unit * tier.frequency_multiplier
        + revenueGo total_units (some tier) rest

/-- `calculate_annual_revenue(total_units, tiers_data)` (lines 68-92 of
`streamlit_app.py`). -/
def calculate_annual_revenue (total_units : ℤ) (tiers_data : List Tier) : ℚ :=
  revenueGo total_units none (sortedTiers tiers_data)

/-- `total_annual_cost = total_units * cost_per_unit` (line 95). -/
def total_annual_cost (total_units : ℤ) (cost_per_unit : ℚ) : ℚ :=
  (total_units : ℚ) * cost_per_unit

/-- `annual_margin = annual_revenue - total_annual_cost` (line 96). -/
def annual_margin (total_units : ℤ) (tiers_data : List Tier) (cost_per_unit : ℚ) : ℚ :=
  calculate_annual_revenue total_units tiers_data - total_annual_cost total_units cost_per_unit

/-- The breakeven quotient `annual_revenue / cost_per_unit`, evaluated
only inside `if total_units > 0`, then `if annual_margin < 0 and
annual_revenue > 0`, then `if cost_per_unit > 0` (lines 113, 129-137);
`none` on every other path (the script prints a message instead). -/
def breakeven_units (total_units : ℤ) (tiers_data : List Tier) (cost_per_unit : ℚ) : Option ℚ :=
  let rev := calculate_annual_revenue total_units tiers_data
  let margin := annual_margin total_units tiers_data cost_per_unit
  if 0 < total_units then
    if margin < 0 ∧ 0 < rev then
      if 0 < cost_per_unit then some (rev / cost_per_unit)
      else none
    else none
  else none

/-- The forecast table (lines 112-123): empty when `total_units = 0`;
otherwise one row `(year, Revenue, Cost, Margin)` for each
`year in range(1, projection_period_years + 1)`, every row identical. -/
def forecast_df (total_units : ℤ) (tiers_data : List Tier) (cost_per_unit : ℚ)
    (projection_period_years : ℕ) : List (ℕ × ℚ × ℚ × ℚ) :=
  if 0 < total_units then
    (List.range projection_period_years).map (fun year =>
      (year + 1,
       calculate_annual_revenue total_units tiers_data,
       total_annual_cost total_units cost_per_unit,
       annual_margin total_units tiers_data cost_per_unit))
  else []

/-- The tier the loop uses as `sorted_tiers[i-1]` at position `i`: the
carried `prev` at `i = 0`, else the element at `i - 1`. -/
def prevAt (prev : Option Tier) (l : List Tier) : ℕ → Option Tier
  | 0 => prev
  | i + 1 => l[i]?

/-- Reference definition from the spec (§4.1 steps 2-3), written indexwise
over the sorted list: `raw_i = max(0, min(total_units, max_units_i) -
min_units_i + 1)`, `already_counted = max(0, min(total_units,
max_units_(i-1)) - min_units_i + 1)` (zero for the first tier), allocation
`= max(0, raw_i - already_counted)`. -/
def spec_alloc (total_units : ℤ) (sorted : List Tier) (i : ℕ) : ℤ :=
  let t := sorted.getD i default
  let raw := max 0 (min total_units t.max_units - t.min_units + 1)
  let already :=
    if i = 0 then 0
    else
      let p := sorted.getD (i - 1) default
      max 0 (min total_units p.max_units - t.min_units + 1)
  max 0 (raw - already)

/-- Reference definition from the spec (§4.2 step 2): sort stably by
`min_units`, then `annual_revenue = sum over tiers of (units_allocated *
price_per_unit * frequency_multiplier)`. -/
def spec_calculate_annual_revenue (total_units : ℤ) (tiers_data : List Tier) : ℚ :=
  let sorted := sortedTiers tiers_data
  ((List.range sorted.length).map (fun i =>
      (spec_alloc total_units sorted i : ℚ) *
        (sorted.getD i default).price_per_unit *
        (sorted.getD i default).frequency_multiplier)).sum

/-- Generalisation of `spec_alloc` carrying a virtual predecessor for the
first position, used to relate the indexwise spec formula to the loop. -/
def specAllocP (total_units : ℤ) (prev : Option Tier) (l : List Tier) (i : ℕ) : ℤ :=
  let t := l.getD i default
  let raw := max 0 (min total_units t.max_units - t.min_units + 1)
  let already :=
    match prevAt prev l i with
    | none => 0
    | some p => max 0 (min total_units p.max_units - t.min_units + 1)
  max 0 (raw - already)

/-- The strict comparison on the sort key; when the keys are pairwise
distinct the stably sorted list is the unique `tierLT`-sorted
rearrangement, so the sort result is independent of the input order. -/
def tierLT (a b : Tier) : Prop := a.min_units < b.min_units

instance : IsAntisymm Tier tierLT :=
  ⟨fun _ _ h h' => absurd (lt_trans h h') (lt_irrefl _)⟩

section Lemmas

theorem allocList_length (total_units : ℤ) :
    ∀ (prev : Option Tier) (l : List Tier),
      (allocList total_units prev l).length = l.length
  | _, [] => rfl
  | _, t :: rest => by
    simp [allocList, allocList_length total_units (some t) rest]

theorem allocList_getElem? (total_units : ℤ) :
    ∀ (prev : Option Tier) (l : List Tier) (i : ℕ),
      (allocList total_units prev l)[i]? =
        Option.map (tierAlloc total_units (prevAt prev l i)) l[i]?
  | _, [], i => by cases i <;> simp [allocList, prevAt]
  | _, t :: rest, 0 => by simp [allocList, prevAt]
  | prev, t :: rest, i + 1 => by
    have ih := allocList_getElem? total_units (some t) rest i
    simp only [allocList, List.getElem?_cons_succ, ih]
    cases i <;> simp [prevAt]

theorem allocations_getD (total_units : ℤ) (tiers_data : List Tier) (i : ℕ)
    (t : Tier) (ht : (sortedTiers tiers_data)[i]? = some t) :
    (allocations total_units tiers_data).getD i 0 =
      tierAlloc total_units (prevAt none (sortedTiers tiers_data) i) t := by
  unfold allocations
  rw [List.getD_eq_getElem?_getD, allocList_getElem?, ht]
  rfl

theorem tierAlloc_nonneg (total_units : ℤ) (prev : Option Tier) (t : Tier) :
    0 ≤ tierAlloc total_units prev t := by
  cases prev <;> simp [tierAlloc]

theorem tierAlloc_eq_zero_of_invalid (total_units : ℤ) (prev : Option Tier) (t : Tier)
    (h : t.max_units < t.min_units) : tierAlloc total_units prev t = 0 := by
  cases prev <;> simp [tierAlloc] <;> omega

theorem tierAlloc_le_sub (total_units : ℤ) (p t : Tier)
    (h : p.max_units ≤ t.max_units) :
    tierAlloc total_units (some p) t ≤
      min total_units t.max_units - min total_units p.max_units := by
  simp only [tierAlloc]
  omega

theorem allocList_sum_le (total_units : ℤ) :
    ∀ (l : List Tier) (p : Tier),
      List.Chain' (fun a b => a.max_units ≤ b.max_units) (p :: l) →
      (allocList total_units (some p) l).sum ≤
        total_units - min total_units p.max_units
  | [], p, _ => by
    simp only [allocList, List.sum_nil]
    omega
  | t :: rest, p, h => by
    obtain ⟨hpt, hch⟩ := List.chain'_cons.mp h
    have h1 := tierAlloc_le_sub total_units p t hpt
    have h2 := allocList_sum_le total_units rest t hch
    simp only [allocList, List.sum_cons]
    omega

theorem tierAlloc_mono (prev : Option Tier) (t : Tier) (T₁ T₂ : ℤ) (h : T₁ ≤ T₂) :
    tierAlloc T₁ prev t ≤ tierAlloc T₂ prev t := by
  cases prev <;> simp only [tierAlloc] <;> omega

theorem revenueGo_mono (T₁ T₂ : ℤ) (h : T₁ ≤ T₂) :
    ∀ (l : List Tier) (prev : Option Tier),
      (∀ t ∈ l, 0 ≤ t.price_per_unit) →
      (∀ t ∈ l, 0 ≤ t.frequency_multiplier) →
      revenueGo T₁ prev l ≤ revenueGo T₂ prev l
  | [], _, _, _ => le_refl 0
  | t :: rest, prev, hp, hf => by
    simp only [revenueGo]
    have h1 : (tierAlloc T₁ prev t : ℚ) ≤ (tierAlloc T₂ prev t : ℚ) := by
      exact_mod_cast tierAlloc_mono prev t T₁ T₂ h
    have hpt := hp t (List.mem_cons_self t rest)
    have hft := hf t (List.mem_cons_self t rest)
    have ih := revenueGo_mono T₁ T₂ h rest (some t)
      (fun u hu => hp u (List.mem_cons_of_mem t hu))
      (fun u hu => hf u (List.mem_cons_of_mem t hu))
    have hterm : (tierAlloc T₁ prev t : ℚ) * t.price_per_unit * t.frequency_multiplier ≤
        (tierAlloc T₂ prev t : ℚ) * t.price_per_unit * t.frequency_multiplier :=
      mul_le_mul_of_nonneg_right (mul_le_mul_of_nonneg_right h1 hpt) hft
    linarith

theorem specAllocP_zero (total_units : ℤ) (p : Option Tier) (t : Tier) (rest : List Tier) :
    specAllocP total_units p (t :: rest) 0 = tierAlloc total_units p t := by
  cases p with
  | none =>
    simp only [specAllocP, prevAt, tierAlloc, List.getD_cons_zero]
    omega
  | some q =>
    simp only [specAllocP, prevAt, tierAlloc, List.getD_cons_zero]

theorem specAllocP_succ (total_units : ℤ) (p : Option Tier) (t : Tier) (rest : List Tier)
    (i : ℕ) :
    specAllocP total_units p (t :: rest) (i + 1) = specAllocP total_units (some t) rest i := by
  cases i <;> simp [specAllocP, prevAt]

theorem revenueGo_eq_spec (total_units : ℤ) :
    ∀ (l : List Tier) (p : Option Tier),
      revenueGo total_units p l =
        ((List.range l.length).map (fun i =>
          (specAllocP total_units p l i : ℚ) *
            (l.getD i default).price_per_unit *
            (l.getD i default).frequency_multiplier)).sum
  | [], _ => by simp [revenueGo]
  | t :: rest, p => by
    have ih := revenueGo_eq_spec total_units rest (some t)
    simp only [revenueGo, ih, List.length_cons, List.range_succ_eq_map, List.map_cons,
      List.map_map, List.sum_cons, specAllocP_zero, List.getD_cons_zero]
    congr 1
    refine congrArg List.sum ?_
    symm
    apply List.map_congr_left
    intro i _
    simp [Function.comp, specAllocP_succ]

theorem specAllocP_none_eq (total_units : ℤ) (sorted : List Tier) (i : ℕ)
    (hi : i < sorted.length) :
    specAllocP total_units none sorted i = spec_alloc total_units sorted i := by
  cases i with
  | zero => simp [specAllocP, spec_alloc, prevAt]
  | succ j =>
    have hj : j < sorted.length := lt_trans (Nat.lt_succ_self j) hi
    simp only [specAllocP, spec_alloc, prevAt, Nat.succ_ne_zero, if_false,
      Nat.add_sub_cancel, List.getElem?_eq_getElem hj, List.getD_eq_getElem?_getD,
      Option.getD_some]

theorem sortedTiers_perm (tiers_data : List Tier) :
    (sortedTiers tiers_data).Perm tiers_data :=
  List.perm_insertionSort tierLE tiers_data

theorem sortedTiers_sorted (tiers_data : List Tier) :
    (sortedTiers tiers_data).Sorted tierLE :=
  List.sorted_insertionSort tierLE tiers_data

theorem sortedTiers_eq_of_perm (l₁ l₂ : List Tier) (hperm : l₁.Perm l₂)
    (hdist : l₁.Pairwise (fun a b => a.min_units ≠ b.min_units)) :
    sortedTiers l₁ = sortedTiers l₂ := by
  have hsymm : ∀ {a b : Tier}, a.min_units ≠ b.min_units → b.min_units ≠ a.min_units :=
    fun hab h => hab h.symm
  have hp : (sortedTiers l₁).Perm (sortedTiers l₂) :=
    (sortedTiers_perm l₁).trans (hperm.trans (sortedTiers_perm l₂).symm)
  have hd₁ : (sortedTiers l₁).Pairwise (fun a b => a.min_units ≠ b.min_units) :=
    (List.Perm.pairwise_iff hsymm (sortedTiers_perm l₁)).mpr hdist
  have hd₂ : (sortedTiers l₂).Pairwise (fun a b => a.min_units ≠ b.min_units) :=
    (List.Perm.pairwise_iff hsymm hp).mp hd₁
  have hs₁ : (sortedTiers l₁).Sorted tierLT :=
    ((sortedTiers_sorted l₁).and hd₁).imp (fun h => lt_of_le_of_ne h.1 h.2)
  have hs₂ : (sortedTiers l₂).Sorted tierLT :=
    ((sortedTiers_sorted l₂).and hd₂).imp (fun h => lt_of_le_of_ne h.1 h.2)
  exact List.eq_of_perm_of_sorted hp hs₁ hs₂

end Lemmas

/-- C1: scenario A of the spec fails on the code. With tiers
`[(0,99,$100,freq 1), (100,199,$90,freq 1)]` and `total_units = 150`,
`calculate_annual_revenue` allocates 100 units to tier 1 but 51 (not 50)
to tier 2 — `min(150,199) - 100 + 1 = 51` counts both endpoints — and
returns `100*100 + 51*90 = 14590`, not the specified 14500. -/
theorem scenarioA_code_eval :
    allocations 150 [⟨0, 99, 100, 1⟩, ⟨100, 199, 90, 1⟩] = [100, 51] ∧
    calculate_annual_revenue 150 [⟨0, 99, 100, 1⟩, ⟨100, 199, 90, 1⟩] = 14590 ∧
    calculate_annual_revenue 150 [⟨0, 99, 100, 1⟩, ⟨100, 199, 90, 1⟩] ≠ 14500 := by
  refine ⟨by decide, ?_, ?_⟩ <;>
    norm_num [calculate_annual_revenue, sortedTiers, List.insertionSort, List.orderedInsert,
      tierLE, revenueGo, tierAlloc]

/-- C4: the zero-units edge case fails on the code. With `total_units = 0`
and the single tier `(0, 99, $100, freq 1)`, the code computes
`max(0, min(0,99) - 0 + 1) = 1`, so the tier is allocated 1 unit (not 0)
and `calculate_annual_revenue` returns 100 (not 0); `total_annual_cost`
is 0 as claimed. -/
theorem zero_units_code_eval :
    allocations 0 [⟨0, 99, 100, 1⟩] = [1] ∧
    calculate_annual_revenue 0 [⟨0, 99, 100, 1⟩] = 100 ∧
    total_annual_cost 0 50 = 0 := by
  refine ⟨by decide, ?_, ?_⟩ <;>
    norm_num [calculate_annual_revenue, sortedTiers, List.insertionSort, List.orderedInsert,
      tierLE, revenueGo, tierAlloc, total_annual_cost]

/-- C3, counterexample: the sum of allocations can exceed `total_units`.
At `total_units = 0` with the single tier `(0, 99, $100, freq 1)` the
algorithm allocates 1 unit in total, and `1 ≤ 0` is false. -/
theorem allocation_sum_counterexample :
    ¬ ((allocations 0 [⟨0, 99, 100, 1⟩]).sum ≤ (0 : ℤ)) := by decide

/-- C6, counterexample: a tier with `max_units < min_units` is not
rejected — `calculate_annual_revenue` contains no validation and still
produces a revenue figure (here 110, all of it from the valid tier). -/
theorem invalid_tier_counterexample :
    (Tier.mk 5 3 100 1).max_units < (Tier.mk 5 3 100 1).min_units ∧
    calculate_annual_revenue 10 [⟨5, 3, 100, 1⟩, ⟨0, 99, 10, 1⟩] = 110 := by
  refine ⟨by decide, ?_⟩
  norm_num [calculate_annual_revenue, sortedTiers, List.insertionSort, List.orderedInsert,
    tierLE, revenueGo, tierAlloc]

/-- C6 (amended): `calculate_annual_revenue` performs no validation and
raises no error; instead a tier with `max_units < min_units` is clamped
to zero allocation — it is allocated exactly 0 units for every
`total_units`, so it contributes nothing while a revenue figure is still
produced. -/
theorem invalid_tier_clamped_to_zero (total_units : ℤ) (tiers_data : List Tier)
    (i : ℕ) (t : Tier) (ht : (sortedTiers tiers_data)[i]? = some t)
    (hinv : t.max_units < t.min_units) :
    (allocations total_units tiers_data).getD i 0 = 0 := by
  rw [allocations_getD total_units tiers_data i t ht]
  exact tierAlloc_eq_zero_of_invalid _ _ _ hinv

/-- Witness for `invalid_tier_clamped_to_zero` at a concrete input. -/
theorem invalid_tier_clamped_to_zero_witness :
    (sortedTiers [⟨5, 3, 100, 1⟩, ⟨0, 99, 10, 1⟩])[1]? = some ⟨5, 3, 100, 1⟩ ∧
    (Tier.mk 5 3 100 1).max_units < (Tier.mk 5 3 100 1).min_units ∧
    (allocations 10 [⟨5, 3, 100, 1⟩, ⟨0, 99, 10, 1⟩]).getD 1 0 = 0 :=
  ⟨by decide, by decide,
    invalid_tier_clamped_to_zero 10 [⟨5, 3, 100, 1⟩, ⟨0, 99, 10, 1⟩] 1 ⟨5, 3, 100, 1⟩
      (by decide) (by decide)⟩

/-- C9: in the sorted order, a tier whose `max_units` is at most the
`max_units` of the immediately preceding sorted tier is allocated exactly
0 units (its raw count never exceeds what the predecessor already
counted), so its revenue term `units * price * frequency` is 0. -/
theorem dominated_tier_allocates_zero (total_units : ℤ) (tiers_data : List Tier)
    (i : ℕ) (p t : Tier)
    (hp : (sortedTiers tiers_data)[i]? = some p)
    (ht : (sortedTiers tiers_data)[i + 1]? = some t)
    (hle : t.max_units ≤ p.max_units) :
    (allocations total_units tiers_data).getD (i + 1) 0 = 0 ∧
    ((allocations total_units tiers_data).getD (i + 1) 0 : ℚ) *
        t.price_per_unit * t.frequency_multiplier = 0 := by
  have hprev : prevAt none (sortedTiers tiers_data) (i + 1) = some p := by
    simpa [prevAt] using hp
  have h0 : (allocations total_units tiers_data).getD (i + 1) 0 = 0 := by
    rw [allocations_getD total_units tiers_data (i + 1) t ht, hprev]
    simp only [tierAlloc]
    omega
  refine ⟨h0, ?_⟩
  rw [h0]
  simp

/-- Witness for `dominated_tier_allocates_zero` at a concrete input:
tier `(10,50)` is nested inside tier `(0,99)` and allocates 0. -/
theorem dominated_tier_allocates_zero_witness :
    (sortedTiers [⟨0, 99, 100, 1⟩, ⟨10, 50, 90, 1⟩])[0]? = some ⟨0, 99, 100, 1⟩ ∧
    (sortedTiers [⟨0, 99, 100, 1⟩, ⟨10, 50, 90, 1⟩])[1]? = some ⟨10, 50, 90, 1⟩ ∧
    (allocations 150 [⟨0, 99, 100, 1⟩, ⟨10, 50, 90, 1⟩]).getD 1 0 = 0 :=
  ⟨by decide, by decide,
    (dominated_tier_allocates_zero 150 [⟨0, 99, 100, 1⟩, ⟨10, 50, 90, 1⟩] 0
      ⟨0, 99, 100, 1⟩ ⟨10, 50, 90, 1⟩ (by decide) (by decide) (by decide)).1⟩

/-- C3 (amended): the unrestricted bound `sum ≤ total_units` is false
(see the counterexample); because the inclusive formula counts both
endpoints, and because only the immediately preceding sorted tier is
subtracted, the bound that holds is: for valid tiers (`0 ≤ min_units ≤
max_units`) whose `max_units` are non-decreasing along the sorted order,
the total allocation is at most `total_units + 1`. -/
theorem allocation_sum_le (total_units : ℤ) (tiers_data : List Tier)
    (htot : 0 ≤ total_units)
    (hvalid : ∀ t ∈ tiers_data, 0 ≤ t.min_units ∧ t.min_units ≤ t.max_units)
    (hchain : List.Chain' (fun a b => a.max_units ≤ b.max_units)
      (sortedTiers tiers_data)) :
    (allocations total_units tiers_data).sum ≤ total_units + 1 := by
  rcases hs : sortedTiers tiers_data with _ | ⟨t, rest⟩
  · simp only [allocations, hs, allocList, List.sum_nil]
    omega
  · have ht : 0 ≤ t.min_units ∧ t.min_units ≤ t.max_units := by
      apply hvalid
      have : t ∈ sortedTiers tiers_data := by
        rw [hs]; exact List.mem_cons_self _ _
      simpa [sortedTiers] using this
    have hch : List.Chain' (fun a b => a.max_units ≤ b.max_units) (t :: rest) :=
      hs ▸ hchain
    have hrest := allocList_sum_le total_units rest t hch
    have hhead : tierAlloc total_units none t =
        max 0 (min total_units t.max_units - t.min_units + 1) := rfl
    simp only [allocations, hs, allocList, List.sum_cons, hhead]
    omega

/-- Witness for `allocation_sum_le` at a concrete input. -/
theorem allocation_sum_le_witness :
    (0 : ℤ) ≤ 150 ∧
    (∀ t ∈ [Tier.mk 0 99 100 1, Tier.mk 100 199 90 1],
      0 ≤ t.min_units ∧ t.min_units ≤ t.max_units) ∧
    List.Chain' (fun a b => a.max_units ≤ b.max_units)
      (sortedTiers [⟨0, 99, 100, 1⟩, ⟨100, 199, 90, 1⟩]) ∧
    (allocations 150 [⟨0, 99, 100, 1⟩, ⟨100, 199, 90, 1⟩]).sum ≤ 150 + 1 := by
  have hchain : List.Chain' (fun a b : Tier => a.max_units ≤ b.max_units)
      (sortedTiers [⟨0, 99, 100, 1⟩, ⟨100, 199, 90, 1⟩]) := by
    rw [show sortedTiers [⟨0, 99, 100, 1⟩, ⟨100, 199, 90, 1⟩] =
        [⟨0, 99, 100, 1⟩, ⟨100, 199, 90, 1⟩] from by decide]
    norm_num [List.chain'_cons]
  exact ⟨by decide, by decide, hchain,
    allocation_sum_le 150 [⟨0, 99, 100, 1⟩, ⟨100, 199, 90, 1⟩]
      (by decide) (by decide) hchain⟩

/-- C5: for a fixed tier list with non-negative prices and positive
frequency multipliers, increasing `total_units` never decreases the units
allocated at any position of the sorted order, and never decreases
`calculate_annual_revenue`. -/
theorem monotone_in_total_units (tiers_data : List Tier) (T₁ T₂ : ℤ) (h : T₁ ≤ T₂)
    (hp : ∀ t ∈ tiers_data, 0 ≤ t.price_per_unit)
    (hf : ∀ t ∈ tiers_data, 0 < t.frequency_multiplier) :
    (∀ i : ℕ,
      (allocations T₁ tiers_data).getD i 0 ≤ (allocations T₂ tiers_data).getD i 0) ∧
    calculate_annual_revenue T₁ tiers_data ≤ calculate_annual_revenue T₂ tiers_data := by
  constructor
  · intro i
    unfold allocations
    rw [List.getD_eq_getElem?_getD, List.getD_eq_getElem?_getD,
      allocList_getElem?, allocList_getElem?]
    cases hsi : (sortedTiers tiers_data)[i]? with
    | none => simp
    | some t => simpa using tierAlloc_mono _ t T₁ T₂ h
  · unfold calculate_annual_revenue
    apply revenueGo_mono T₁ T₂ h
    · intro t htm
      exact hp t (by simpa [sortedTiers] using htm)
    · intro t htm
      exact le_of_lt (hf t (by simpa [sortedTiers] using htm))

/-- Witness for `monotone_in_total_units` at a concrete input. -/
theorem monotone_in_total_units_witness :
    (50 : ℤ) ≤ 150 ∧
    (∀ t ∈ [Tier.mk 0 99 100 1, Tier.mk 100 199 90 1], 0 ≤ t.price_per_unit) ∧
    (∀ t ∈ [Tier.mk 0 99 100 1, Tier.mk 100 199 90 1], 0 < t.frequency_multiplier) ∧
    calculate_annual_revenue 50 [⟨0, 99, 100, 1⟩, ⟨100, 199, 90, 1⟩] ≤
      calculate_annual_revenue 150 [⟨0, 99, 100, 1⟩, ⟨100, 199, 90, 1⟩] :=
  ⟨by decide, by decide, by decide,
    (monotone_in_total_units [⟨0, 99, 100, 1⟩, ⟨100, 199, 90, 1⟩] 50 150
      (by decide) (by decide) (by decide)).2⟩

/-- C7: the breakeven division runs only under the guard `annual_margin <
0` and `annual_revenue > 0` and `cost_per_unit > 0` — so the divisor is
nonzero whenever it runs — and under that guard the reported value is
exactly `annual_revenue / cost_per_unit`. -/
theorem breakeven_guarded (total_units : ℤ) (tiers_data : List Tier) (cost_per_unit : ℚ)
    (hm : annual_margin total_units tiers_data cost_per_unit < 0)
    (hr : 0 < calculate_annual_revenue total_units tiers_data)
    (hc : 0 < cost_per_unit) :
    cost_per_unit ≠ 0 ∧
    breakeven_units total_units tiers_data cost_per_unit =
      some (calculate_annual_revenue total_units tiers_data / cost_per_unit) := by
  have hrc : calculate_annual_revenue total_units tiers_data <
      (total_units : ℚ) * cost_per_unit := by
    have := hm
    unfold annual_margin total_annual_cost at this
    linarith
  have h2 : 0 < (total_units : ℚ) * cost_per_unit := lt_trans hr hrc
  have h3 : 0 < (total_units : ℚ) := by
    by_contra hneg
    push_neg at hneg
    nlinarith
  have htot : 0 < total_units := by exact_mod_cast h3
  refine ⟨ne_of_gt hc, ?_⟩
  simp only [breakeven_units]
  rw [if_pos htot, if_pos ⟨hm, hr⟩, if_pos hc]

/-- Witness for `breakeven_guarded` at a concrete input: one tier
`(0,99,$100,freq 1)`, `total_units = 150`, `cost_per_unit = 100` gives
revenue 10000, cost 15000, margin −5000, breakeven 100. -/
theorem breakeven_guarded_witness :
    annual_margin 150 [⟨0, 99, 100, 1⟩] 100 < 0 ∧
    0 < calculate_annual_revenue 150 [⟨0, 99, 100, 1⟩] ∧
    (0 : ℚ) < 100 ∧
    breakeven_units 150 [⟨0, 99, 100, 1⟩] 100 =
      some (calculate_annual_revenue 150 [⟨0, 99, 100, 1⟩] / 100) := by
  have hrev : calculate_annual_revenue 150 [⟨0, 99, 100, 1⟩] = 10000 := by
    norm_num [calculate_annual_revenue, sortedTiers, List.insertionSort, List.orderedInsert,
      tierLE, revenueGo, tierAlloc]
  have hm : annual_margin 150 [⟨0, 99, 100, 1⟩] 100 < 0 := by
    unfold annual_margin total_annual_cost
    rw [hrev]
    norm_num
  have hr : 0 < calculate_annual_revenue 150 [⟨0, 99, 100, 1⟩] := by
    rw [hrev]; norm_num
  exact ⟨hm, hr, by norm_num,
    (breakeven_guarded 150 [⟨0, 99, 100, 1⟩] 100 hm hr (by norm_num)).2⟩

/-- C8: when `total_units > 0` the forecast has exactly
`projection_period_years` rows, the row at index `i` being `(i + 1,
annual_revenue, annual_cost, annual_margin)` — the same figures repeated
in every row; when `total_units = 0` the forecast is the empty list. -/
theorem forecast_shape (total_units : ℤ) (tiers_data : List Tier) (cost_per_unit : ℚ)
    (projection_period_years : ℕ) :
    (0 < total_units →
      (forecast_df total_units tiers_data cost_per_unit projection_period_years).length =
        projection_period_years ∧
      ∀ i < projection_period_years,
        (forecast_df total_units tiers_data cost_per_unit projection_period_years)[i]? =
          some (i + 1, calculate_annual_revenue total_units tiers_data,
            total_annual_cost total_units cost_per_unit,
            annual_margin total_units tiers_data cost_per_unit)) ∧
    (total_units = 0 →
      forecast_df total_units tiers_data cost_per_unit projection_period_years = []) := by
  constructor
  · intro hpos
    unfold forecast_df
    rw [if_pos hpos]
    refine ⟨by simp, ?_⟩
    intro i hi
    rw [List.getElem?_map, List.getElem?_range hi]
    rfl
  · intro h0
    unfold forecast_df
    rw [if_neg (by omega)]

/-- Witness for `forecast_shape` at a concrete input. -/
theorem forecast_shape_witness :
    (0 : ℤ) < 150 ∧
    (forecast_df 150 [⟨0, 99, 100, 1⟩] 50 5).length = 5 ∧
    forecast_df 0 [⟨0, 99, 100, 1⟩] 50 5 = [] :=
  ⟨by decide,
    ((forecast_shape 150 [⟨0, 99, 100, 1⟩] 50 5).1 (by decide)).1,
    (forecast_shape 0 [⟨0, 99, 100, 1⟩] 50 5).2 rfl⟩

/-- C2: `calculate_annual_revenue` coincides with the spec's reference
definition: stable sort by `min_units`, per-tier `raw_i` and
`already_counted` (from the immediately preceding sorted tier only,
zero for the first), allocation `max(0, raw_i - already_counted)`, and
revenue `Σ units_allocated × price_per_unit × frequency_multiplier`. -/
theorem calculate_eq_spec (total_units : ℤ) (tiers_data : List Tier) :
    calculate_annual_revenue total_units tiers_data =
      spec_calculate_annual_revenue total_units tiers_data := by
  unfold calculate_annual_revenue spec_calculate_annual_revenue
  rw [revenueGo_eq_spec]
  refine congrArg List.sum (List.map_congr_left ?_)
  intro i hi
  rw [List.mem_range] at hi
  rw [specAllocP_none_eq total_units _ i hi]

/-- C10: when the tiers' `min_units` are pairwise distinct,
`calculate_annual_revenue` is invariant under any permutation of the
input tier list — the stable sort by `min_units` then produces the same
sorted list, so the result depends only on the set of tiers. -/
theorem revenue_perm_invariant (total_units : ℤ) (l₁ l₂ : List Tier)
    (hperm : l₁.Perm l₂)
    (hdist : l₁.Pairwise (fun a b => a.min_units ≠ b.min_units)) :
    calculate_annual_revenue total_units l₁ = calculate_annual_revenue total_units l₂ := by
  unfold calculate_annual_revenue
  rw [sortedTiers_eq_of_perm l₁ l₂ hperm hdist]

/-- Witness for `revenue_perm_invariant` at a concrete input: the two
scenario-A tiers listed in either order. -/
theorem revenue_perm_invariant_witness :
    ([Tier.mk 100 199 90 1, Tier.mk 0 99 100 1]).Perm
      [Tier.mk 0 99 100 1, Tier.mk 100 199 90 1] ∧
    ([Tier.mk 100 199 90 1, Tier.mk 0 99 100 1]).Pairwise
      (fun a b => a.min_units ≠ b.min_units) ∧
    calculate_annual_revenue 150 [⟨100, 199, 90, 1⟩, ⟨0, 99, 100, 1⟩] =
      calculate_annual_revenue 150 [⟨0, 99, 100, 1⟩, ⟨100, 199, 90, 1⟩] :=
  ⟨by decide, by decide,
    revenue_perm_invariant 150 [⟨100, 199, 90, 1⟩, ⟨0, 99, 100, 1⟩]
      [⟨0, 99, 100, 1⟩, ⟨100, 199, 90, 1⟩] (by decide) (by decide)⟩

end FeeCalc
